import Mathlib

/-!
Shallow embedding of the liquidity-pool token-sale contract
(`contracts/liquidity-pool/src/state.rs` and `contract.rs`).

`Uint128` values are modelled as `Nat`; the checked arithmetic of the
source (`checked_add`, `checked_mul`, `checked_sub`, `checked_div`,
`checked_rem`) is modelled as `Option Nat`, returning `none` exactly when
the Rust operation would (overflow past `2^128`, subtraction underflow,
division or remainder by zero).  The `as u32` cast on the tier quotient is
modelled as `% 2^32`.
-/

namespace LiquidityPool

/-- Maximum excluded bound of `Uint128`. -/
def u128Bound : Nat := 2 ^ 128

/-- `Uint128::checked_add`: `none` on overflow. -/
def checked_add (a b : Nat) : Option Nat :=
  if a + b < u128Bound then some (a + b) else none

/-- `Uint128::checked_mul`: `none` on overflow. -/
def checked_mul (a b : Nat) : Option Nat :=
  if a * b < u128Bound then some (a * b) else none

/-- `Uint128::checked_sub`: `none` on underflow. -/
def checked_sub (a b : Nat) : Option Nat :=
  if b ≤ a then some (a - b) else none

/-- `Uint128::checked_div`: `none` on division by zero. -/
def checked_div (a b : Nat) : Option Nat :=
  if b = 0 then none else some (a / b)

/-- `Uint128::checked_rem`: `none` on a zero modulus. -/
def checked_rem (a b : Nat) : Option Nat :=
  if b = 0 then none else some (a % b)

/-- `PricingConfig` from `state.rs`. -/
structure PricingConfig where
  base_price_usd : Nat
  tokens_per_tier : Nat
  tier_multiplier : Nat
deriving DecidableEq

/-- `calculate_current_tier` from `state.rs`: floor quotient of tokens sold by
tier size, truncated to `u32` by the Rust `as u32` cast; tier 0 when the tier
size is zero. -/
def calculate_current_tier (tokens_sold tokens_per_tier : Nat) : Nat :=
  if tokens_per_tier = 0 then 0
  else (tokens_sold / tokens_per_tier) % 2 ^ 32

/-- One iteration of the price-escalation loop in `calculate_current_price`:
`price.checked_mul(mult).unwrap_or(price).checked_div(1000).unwrap_or(price)`. -/
def priceStep (tier_multiplier price : Nat) : Nat :=
  (checked_div ((checked_mul price tier_multiplier).getD price) 1000).getD price

/-- `calculate_current_price` from `state.rs`: applies `priceStep`
`current_tier` times starting from the base price. -/
def calculate_current_price (base_price current_tier tier_multiplier : Nat) : Nat :=
  match current_tier with
  | 0 => base_price
  | n + 1 => priceStep tier_multiplier (calculate_current_price base_price n tier_multiplier)

/-- `calculate_tokens_for_usd` from `state.rs`:
`usd.checked_mul(1e9).unwrap_or(0).checked_div(price).unwrap_or(0)`,
with an early zero return on a zero price. -/
def calculate_tokens_for_usd (usd_amount price_per_token : Nat) : Nat :=
  if price_per_token = 0 then 0
  else (checked_div ((checked_mul usd_amount (10 ^ 9)).getD 0) price_per_token).getD 0

/-- Mutable locals of the tier loop in `calculate_multi_tier_purchase`. -/
structure LoopState where
  remaining_usd : Nat
  total_tokens : Nat
  current_tokens_sold_so_far : Nat
  actual_usd_spent : Nat
  end_tier : Nat
deriving DecidableEq

/-- The price of the tier active at `sold` tokens sold (the two statements of
the loop computing `current_tier` then `current_price`). -/
def tierPrice (pc : PricingConfig) (sold : Nat) : Nat :=
  calculate_current_price pc.base_price_usd
    (calculate_current_tier sold pc.tokens_per_tier) pc.tier_multiplier

/-- `tokens_left_in_tier` of the loop:
`tpt.checked_sub(sold.checked_rem(tpt).unwrap_or(0)).unwrap_or(0)`. -/
def tokensLeftInTier (pc : PricingConfig) (sold : Nat) : Nat :=
  (checked_sub pc.tokens_per_tier ((checked_rem sold pc.tokens_per_tier).getD 0)).getD 0

/-- `usd_for_remaining_tier` of the loop:
`tokens_left.checked_mul(price).unwrap_or(0).checked_div(1e9).unwrap_or(0)`. -/
def usdForRemainingTier (pc : PricingConfig) (sold : Nat) : Nat :=
  (checked_div ((checked_mul (tokensLeftInTier pc sold) (tierPrice pc sold)).getD 0)
    (10 ^ 9)).getD 0

/-- The five running-total updates at the end of a loop iteration spending
`spend` micro-USD at the current tier price. -/
def nextState (pc : PricingConfig) (s : LoopState) (spend : Nat) : LoopState :=
  let tokens_in_tier := calculate_tokens_for_usd spend (tierPrice pc s.current_tokens_sold_so_far)
  let new_sold := (checked_add s.current_tokens_sold_so_far tokens_in_tier).getD
    s.current_tokens_sold_so_far
  { remaining_usd := (checked_sub s.remaining_usd spend).getD 0
    total_tokens := (checked_add s.total_tokens tokens_in_tier).getD s.total_tokens
    current_tokens_sold_so_far := new_sold
    actual_usd_spent := (checked_add s.actual_usd_spent spend).getD s.actual_usd_spent
    end_tier := calculate_current_tier new_sold pc.tokens_per_tier }

/-- One iteration of the 50-round loop of `calculate_multi_tier_purchase`;
`none` encodes the three `break`s (no remaining payment, zero price,
zero spendable amount in the tier). -/
def loopBody (pc : PricingConfig) (s : LoopState) : Option LoopState :=
  if s.remaining_usd = 0 then none
  else
    let current_price := tierPrice pc s.current_tokens_sold_so_far
    if current_price = 0 then none
    else
      let usd_for_remaining_tier := usdForRemainingTier pc s.current_tokens_sold_so_far
      let usd_to_spend_in_tier :=
        if s.remaining_usd ≤ usd_for_remaining_tier then s.remaining_usd
        else usd_for_remaining_tier
      if usd_to_spend_in_tier = 0 then none
      else some (nextState pc s usd_to_spend_in_tier)

/-- The bounded loop of `calculate_multi_tier_purchase` (`for iteration in 0..50`
with `break` modelled by `loopBody` returning `none`). -/
def multiTierLoop (pc : PricingConfig) : Nat → LoopState → LoopState
  | 0, s => s
  | fuel + 1, s =>
    match loopBody pc s with
    | none => s
    | some s2 => multiTierLoop pc fuel s2

/-- Return value of `calculate_multi_tier_purchase` (the Rust 5-tuple, with the
field names of its doc comment). -/
structure PurchaseResult where
  total_tokens_to_buy : Nat
  actual_usd_spent : Nat
  start_tier : Nat
  end_tier : Nat
  average_price_paid : Nat
deriving DecidableEq

/-- `calculate_multi_tier_purchase` from `state.rs`. -/
def calculate_multi_tier_purchase (usd_amount current_tokens_sold : Nat)
    (pc : PricingConfig) : PurchaseResult :=
  if usd_amount = 0 ∨ pc.tokens_per_tier = 0 ∨ pc.base_price_usd = 0 then
    ⟨0, 0, 0, 0, 0⟩
  else
    let start_tier := calculate_current_tier current_tokens_sold pc.tokens_per_tier
    let s := multiTierLoop pc 50
      { remaining_usd := usd_amount
        total_tokens := 0
        current_tokens_sold_so_far := current_tokens_sold
        actual_usd_spent := 0
        end_tier := start_tier }
    let average_price :=
      if s.total_tokens = 0 then 0
      else (checked_div ((checked_mul s.actual_usd_spent (10 ^ 9)).getD 0) s.total_tokens).getD 0
    ⟨s.total_tokens, s.actual_usd_spent, start_tier, s.end_tier, average_price⟩

/-- `Config` from `state.rs`. -/
structure Config where
  admin : String
  native_denom : String
  daily_limit_bp : Nat
  is_paused : Bool
  total_supply : Nat
  total_tokens_sold : Nat
deriving DecidableEq

/-- `DailyStats` from `state.rs`. -/
structure DailyStats where
  current_day : Nat
  usd_received_today : Nat
  tokens_sold_today : Nat
deriving DecidableEq

/-- The three persisted records (`CONFIG`, `PRICING_CONFIG`, `DAILY_STATS`). -/
structure Storage where
  config : Config
  pricing_config : PricingConfig
  daily_stats : DailyStats
deriving DecidableEq

/-- `ContractError` from `error.rs`. -/
inductive ContractError where
  | Std (msg : String)
  | Unauthorized
  | ContractPaused
  | DailyLimitExceeded (available requested : Nat)
  | InvalidToken (token : String)
  | InvalidExchangeRate (token : String)
  | ZeroAmount
  | InsufficientBalance (available needed : Nat)
  | InvalidBasisPoints (value : Nat)
  | TokenNotAccepted (token : String)
  | NoTokensToPurchase
deriving DecidableEq

/-- `BankMsg::Send` of the native token emitted on success. -/
structure BankSend where
  to_address : String
  denom : String
  amount : Nat
deriving DecidableEq

/-- CW20 transfer forwarding the payment to the admin (built by
`create_cw20_transfer_msg`). -/
structure Cw20Transfer where
  contract : String
  recipient : String
  amount : Nat
deriving DecidableEq

/-- Messages of the success `Response` of `receive_cw20`: the native send to
the buyer, and the CW20 forward to the admin when one is configured. -/
structure SettleResponse where
  native_send : BankSend
  cw20_forward : Option Cw20Transfer
deriving DecidableEq

/-- `InstantiateMsg` from `msg.rs`. -/
structure InstantiateMsg where
  admin : Option String
  daily_limit_bp : Option Nat
  base_price_usd : Option Nat
  tokens_per_tier : Option Nat
  tier_multiplier : Option Nat
  total_supply : Option Nat
deriving DecidableEq

/-- `receive_cw20` from `contract.rs`, threading the persisted storage
explicitly: the returned `Storage` is the storage as saved by the time the
function returns, so every early `return Err` yields the unmodified input
storage (the two `save` calls happen only after all checks pass).

External effects are parameters: `env_time` is `env.block.time.seconds()`,
`contract_balance` the queried native balance of the contract (a `Uint256`
value), `token_valid` the result of the `ValidateWrappedTokenForTrade` gRPC
query (`none` = query error), `msg_parse_ok` whether `from_json` of the inner
message succeeds, `info_sender` the CW20 contract address and `buyer`/`amount`
the fields of `Cw20ReceiveMsg`. -/
def receive_cw20 (env_time contract_balance : Nat) (token_valid : Option Bool)
    (msg_parse_ok : Bool) (info_sender buyer : String) (amount : Nat)
    (st : Storage) : Storage × Except ContractError SettleResponse :=
  let config := st.config
  let pricing_config := st.pricing_config
  if config.is_paused then (st, .error .ContractPaused)
  else
    match token_valid with
    | none => (st, .error (.Std "Querier error in ValidateWrappedTokenForTrade"))
    | some false => (st, .error (.TokenNotAccepted info_sender))
    | some true =>
      if msg_parse_ok = false then (st, .error (.Std "Error parsing into type PurchaseTokenMsg"))
      else
        let current_day := env_time / 86400
        let daily_stats : DailyStats :=
          if st.daily_stats.current_day ≠ current_day then
            { current_day := current_day, usd_received_today := 0, tokens_sold_today := 0 }
          else st.daily_stats
        let usd_value := amount
        if usd_value = 0 then (st, .error .ZeroAmount)
        else
          let r := calculate_multi_tier_purchase usd_value config.total_tokens_sold pricing_config
          if r.actual_usd_spent ≠ usd_value then
            (st, .error (.Std "Cannot process full USD amount"))
          else if r.total_tokens_to_buy = 0 then (st, .error .ZeroAmount)
          else
            match checked_mul config.total_supply config.daily_limit_bp with
            | none => (st, .error (.InvalidBasisPoints config.daily_limit_bp))
            | some product =>
              match checked_div product 10000 with
              | none => (st, .error (.InvalidBasisPoints config.daily_limit_bp))
              | some daily_token_limit =>
                let tokens_available_today :=
                  (checked_sub daily_token_limit daily_stats.tokens_sold_today).getD 0
                if tokens_available_today < r.total_tokens_to_buy then
                  (st, .error (.DailyLimitExceeded tokens_available_today r.total_tokens_to_buy))
                else if contract_balance < u128Bound then
                  if contract_balance < r.total_tokens_to_buy then
                    (st, .error (.InsufficientBalance contract_balance r.total_tokens_to_buy))
                  else
                    match checked_add daily_stats.usd_received_today usd_value with
                    | none => (st, .error (.Std "overflow adding usd_received_today"))
                    | some usd_today =>
                      match checked_add daily_stats.tokens_sold_today r.total_tokens_to_buy with
                      | none => (st, .error (.Std "overflow adding tokens_sold_today"))
                      | some tokens_today =>
                        match checked_add config.total_tokens_sold r.total_tokens_to_buy with
                        | none => (st, .error (.Std "overflow adding total_tokens_sold"))
                        | some new_total_sold =>
                          let new_daily : DailyStats :=
                            { daily_stats with
                                usd_received_today := usd_today
                                tokens_sold_today := tokens_today }
                          let updated_config : Config :=
                            { config with total_tokens_sold := new_total_sold }
                          let st2 : Storage :=
                            { st with config := updated_config, daily_stats := new_daily }
                          let response : SettleResponse :=
                            { native_send :=
                                { to_address := buyer
                                  denom := updated_config.native_denom
                                  amount := r.total_tokens_to_buy }
                              cw20_forward :=
                                if updated_config.admin ≠ "" then
                                  some
                                    { contract := info_sender
                                      recipient := updated_config.admin
                                      amount := amount }
                                else none }
                          (st2, .ok response)
                else (st, .error (.Std "contract balance exceeds Uint128"))

/-- `instantiate` from `contract.rs`.  `admin_valid` models
`deps.api.addr_validate` on a non-empty provided admin (`false` = the host
rejects the address); `native_denom` is the result of `get_native_denom`,
which never errors (it falls back to a fixed default). -/
def instantiate (env_time : Nat) (admin_valid : Bool) (native_denom : String)
    (msg : InstantiateMsg) : Except ContractError Storage :=
  let daily_limit_bp := msg.daily_limit_bp.getD 100
  if daily_limit_bp = 0 ∨ 10000 < daily_limit_bp then
    .error (.InvalidBasisPoints daily_limit_bp)
  else
    let adminResult : Except ContractError String :=
      match msg.admin with
      | some addr =>
        if addr ≠ "" then
          if admin_valid then .ok addr else .error (.Std "addr_validate failed")
        else .ok ""
      | none => .ok ""
    match adminResult with
    | .error e => .error e
    | .ok admin =>
      let config : Config :=
        { admin := admin
          native_denom := native_denom
          daily_limit_bp := daily_limit_bp
          is_paused := false
          total_supply := msg.total_supply.getD 0
          total_tokens_sold := 0 }
      let pricing_config : PricingConfig :=
        { base_price_usd := msg.base_price_usd.getD 25000
          tokens_per_tier := msg.tokens_per_tier.getD 3000000000000000
          tier_multiplier := msg.tier_multiplier.getD 1300 }
      let daily_stats : DailyStats :=
        { current_day := env_time / 86400
          usd_received_today := 0
          tokens_sold_today := 0 }
      .ok { config := config, pricing_config := pricing_config, daily_stats := daily_stats }

/-- `update_pricing_config` from `contract.rs`: admin-gated; each provided
field is validated non-zero and overwrites the stored one, absent fields keep
their stored values. -/
def update_pricing_config (info_sender : String) (base_price_usd tokens_per_tier
    tier_multiplier : Option Nat) (st : Storage) :
    Storage × Except ContractError Unit :=
  if st.config.admin = "" ∨ info_sender ≠ st.config.admin then (st, .error .Unauthorized)
  else if base_price_usd = some 0 then (st, .error .ZeroAmount)
  else if tokens_per_tier = some 0 then (st, .error .ZeroAmount)
  else if tier_multiplier = some 0 then
    (st, .error (.InvalidExchangeRate "tier_multiplier must be greater than 0"))
  else
    let pc : PricingConfig :=
      { base_price_usd := base_price_usd.getD st.pricing_config.base_price_usd
        tokens_per_tier := tokens_per_tier.getD st.pricing_config.tokens_per_tier
        tier_multiplier := tier_multiplier.getD st.pricing_config.tier_multiplier }
    ({ st with pricing_config := pc }, .ok ())

/-! Helper lemmas about the checked arithmetic. -/

theorem checked_div_getD (a b d : Nat) (hb : b ≠ 0) : (checked_div a b).getD d = a / b := by
  simp [checked_div, hb]

theorem checked_rem_getD (a b d : Nat) (hb : b ≠ 0) : (checked_rem a b).getD d = a % b := by
  simp [checked_rem, hb]

theorem checked_sub_getD (a b d : Nat) (h : b ≤ a) : (checked_sub a b).getD d = a - b := by
  simp [checked_sub, h]

theorem checked_add_getD_of_lt (a b d : Nat) (h : a + b < u128Bound) :
    (checked_add a b).getD d = a + b := by
  simp [checked_add, h]

theorem checked_mul_getD_of_lt (a b d : Nat) (h : a * b < u128Bound) :
    (checked_mul a b).getD d = a * b := by
  simp [checked_mul, h]

theorem checked_add_getD_cases (a b d : Nat) :
    (checked_add a b).getD d = a + b ∨ (checked_add a b).getD d = d := by
  by_cases h : a + b < u128Bound
  · left; simp [checked_add, h]
  · right; simp [checked_add, h]

/-! Tier math lemmas. -/

/-- One price-escalation step, with the checked arithmetic resolved: below the
overflow bound the step multiplies then floor-divides by 1000; on overflow the
kept old price is still divided by 1000. -/
theorem priceStep_eq (mult p : Nat) :
    priceStep mult p = if p * mult < u128Bound then p * mult / 1000 else p / 1000 := by
  by_cases h : p * mult < u128Bound <;>
    simp [priceStep, checked_mul, checked_div, h]

theorem calculate_current_price_succ (base n mult : Nat) :
    calculate_current_price base (n + 1) mult =
      priceStep mult (calculate_current_price base n mult) := rfl

theorem priceStep_ge (mult p : Nat) (hm : 1000 ≤ mult) (hov : p * mult < u128Bound) :
    p ≤ priceStep mult p := by
  rw [priceStep_eq, if_pos hov]
  calc p = p * 1000 / 1000 := by omega
    _ ≤ p * mult / 1000 := Nat.div_le_div_right (Nat.mul_le_mul_left p hm)

theorem price_mono (base mult t1 t2 : Nat) (hm : 1000 ≤ mult) (ht : t1 ≤ t2)
    (hov : ∀ k, k < t2 → calculate_current_price base k mult * mult < u128Bound) :
    calculate_current_price base t1 mult ≤ calculate_current_price base t2 mult := by
  induction t2 with
  | zero =>
    have h0 : t1 = 0 := Nat.le_zero.mp ht
    simp [h0]
  | succ n ih =>
    by_cases h : t1 = n + 1
    · simp [h]
    · have ht1 : t1 ≤ n := Nat.lt_succ_iff.mp (lt_of_le_of_ne ht h)
      calc calculate_current_price base t1 mult
          ≤ calculate_current_price base n mult :=
            ih ht1 (fun k hk => hov k (Nat.lt_succ_of_lt hk))
        _ ≤ calculate_current_price base (n + 1) mult := by
            rw [calculate_current_price_succ]
            exact priceStep_ge mult _ hm (hov n (Nat.lt_succ_self n))

theorem tier_mono (s1 s2 tpt : Nat) (hs : s1 ≤ s2) (hq : s2 / tpt < 2 ^ 32) :
    calculate_current_tier s1 tpt ≤ calculate_current_tier s2 tpt := by
  unfold calculate_current_tier
  by_cases h : tpt = 0
  · simp [h]
  · have h1 : s1 / tpt ≤ s2 / tpt := Nat.div_le_div_right hs
    rw [if_neg h, if_neg h, Nat.mod_eq_of_lt (lt_of_le_of_lt h1 hq), Nat.mod_eq_of_lt hq]
    exact h1

/-- The tier price depends on the cumulative sold amount only through its
quotient by the tier size. -/
theorem tierPrice_congr (pc : PricingConfig) (a b : Nat)
    (h : a / pc.tokens_per_tier = b / pc.tokens_per_tier) :
    tierPrice pc a = tierPrice pc b := by
  unfold tierPrice calculate_current_tier
  rw [h]

/-! Lemmas about one loop iteration (`nextState`). -/

theorem nextState_remaining (pc : PricingConfig) (s : LoopState) (spend : Nat)
    (h : spend ≤ s.remaining_usd) :
    (nextState pc s spend).remaining_usd = s.remaining_usd - spend := by
  simp [nextState, checked_sub, h]

theorem nextState_actual (pc : PricingConfig) (s : LoopState) (spend : Nat)
    (h : spend ≤ s.remaining_usd)
    (hb : s.actual_usd_spent + s.remaining_usd < u128Bound) :
    (nextState pc s spend).actual_usd_spent = s.actual_usd_spent + spend := by
  have hlt : s.actual_usd_spent + spend < u128Bound := by omega
  simp [nextState, checked_add, hlt]

theorem nextState_inv (pc : PricingConfig) (s : LoopState) (spend : Nat)
    (h : spend ≤ s.remaining_usd) :
    (nextState pc s spend).actual_usd_spent + (nextState pc s spend).remaining_usd
      ≤ s.actual_usd_spent + s.remaining_usd := by
  rw [nextState_remaining pc s spend h]
  by_cases hb : s.actual_usd_spent + spend < u128Bound <;>
    simp [nextState, checked_add, hb] <;> omega

theorem nextState_sold_le (pc : PricingConfig) (s : LoopState) (spend : Nat) :
    s.current_tokens_sold_so_far ≤ (nextState pc s spend).current_tokens_sold_so_far := by
  by_cases h : s.current_tokens_sold_so_far +
      calculate_tokens_for_usd spend (tierPrice pc s.current_tokens_sold_so_far) < u128Bound <;>
    simp [nextState, checked_add, h]

theorem nextState_total_cases (pc : PricingConfig) (s : LoopState) (spend : Nat) :
    (nextState pc s spend).total_tokens = s.total_tokens +
        calculate_tokens_for_usd spend (tierPrice pc s.current_tokens_sold_so_far)
    ∨ (nextState pc s spend).total_tokens = s.total_tokens := by
  by_cases h : s.total_tokens +
      calculate_tokens_for_usd spend (tierPrice pc s.current_tokens_sold_so_far) < u128Bound
  · left; simp [nextState, checked_add, h]
  · right; simp [nextState, checked_add, h]

theorem nextState_end_tier (pc : PricingConfig) (s : LoopState) (spend : Nat) :
    (nextState pc s spend).end_tier =
      calculate_current_tier (nextState pc s spend).current_tokens_sold_so_far
        pc.tokens_per_tier := by
  simp [nextState]

/-- Tokens bought inside a tier never exceed the tokens left in that tier. -/
theorem tokens_in_tier_le (pc : PricingConfig) (sold spend : Nat)
    (htpt : pc.tokens_per_tier ≠ 0)
    (hp : tierPrice pc sold ≠ 0)
    (hspend : spend ≤ usdForRemainingTier pc sold)
    (hspend0 : spend ≠ 0) :
    calculate_tokens_for_usd spend (tierPrice pc sold) ≤ tokensLeftInTier pc sold := by
  by_cases hov : tokensLeftInTier pc sold * tierPrice pc sold < u128Bound
  · have huft : usdForRemainingTier pc sold =
        tokensLeftInTier pc sold * tierPrice pc sold / 10 ^ 9 := by
      unfold usdForRemainingTier
      rw [checked_mul_getD_of_lt _ _ _ hov, checked_div_getD _ _ _ (by norm_num)]
    unfold calculate_tokens_for_usd
    rw [if_neg hp]
    by_cases hov2 : spend * 10 ^ 9 < u128Bound
    · rw [checked_mul_getD_of_lt _ _ _ hov2, checked_div_getD _ _ _ hp]
      have h1 : spend * 10 ^ 9 ≤ tokensLeftInTier pc sold * tierPrice pc sold := by
        calc spend * 10 ^ 9
            ≤ tokensLeftInTier pc sold * tierPrice pc sold / 10 ^ 9 * 10 ^ 9 :=
              Nat.mul_le_mul_right _ (huft ▸ hspend)
          _ ≤ tokensLeftInTier pc sold * tierPrice pc sold := Nat.div_mul_le_self _ _
      calc spend * 10 ^ 9 / tierPrice pc sold
          ≤ tokensLeftInTier pc sold * tierPrice pc sold / tierPrice pc sold :=
            Nat.div_le_div_right h1
        _ = tokensLeftInTier pc sold := Nat.mul_div_cancel _ (Nat.pos_of_ne_zero hp)
    · unfold checked_mul
      rw [if_neg hov2]
      simp [checked_div, hp]
  · have huft : usdForRemainingTier pc sold = 0 := by
      unfold usdForRemainingTier
      simp [checked_mul, hov, checked_div]
    omega

/-- One loop iteration advances the tier quotient of the cumulative sold
amount by at most one. -/
theorem nextState_q_le (pc : PricingConfig) (s : LoopState) (spend : Nat)
    (htpt : pc.tokens_per_tier ≠ 0)
    (hp : tierPrice pc s.current_tokens_sold_so_far ≠ 0)
    (hspend : spend ≤ usdForRemainingTier pc s.current_tokens_sold_so_far)
    (hspend0 : spend ≠ 0) :
    (nextState pc s spend).current_tokens_sold_so_far / pc.tokens_per_tier
      ≤ s.current_tokens_sold_so_far / pc.tokens_per_tier + 1 := by
  have ht := tokens_in_tier_le pc s.current_tokens_sold_so_far spend htpt hp hspend hspend0
  have hmod : s.current_tokens_sold_so_far % pc.tokens_per_tier < pc.tokens_per_tier :=
    Nat.mod_lt _ (Nat.pos_of_ne_zero htpt)
  have htl : tokensLeftInTier pc s.current_tokens_sold_so_far =
      pc.tokens_per_tier - s.current_tokens_sold_so_far % pc.tokens_per_tier := by
    unfold tokensLeftInTier
    rw [checked_rem_getD _ _ _ htpt, checked_sub_getD _ _ _ (le_of_lt hmod)]
  have hsold : (nextState pc s spend).current_tokens_sold_so_far ≤
      s.current_tokens_sold_so_far + tokensLeftInTier pc s.current_tokens_sold_so_far := by
    rcases checked_add_getD_cases s.current_tokens_sold_so_far
        (calculate_tokens_for_usd spend (tierPrice pc s.current_tokens_sold_so_far))
        s.current_tokens_sold_so_far with h | h <;>
      simp only [nextState] <;> rw [h] <;> omega
  have key : s.current_tokens_sold_so_far +
      (pc.tokens_per_tier - s.current_tokens_sold_so_far % pc.tokens_per_tier) =
      (s.current_tokens_sold_so_far / pc.tokens_per_tier + 1) * pc.tokens_per_tier := by
    have hdm := Nat.div_add_mod s.current_tokens_sold_so_far pc.tokens_per_tier
    have hexp : (s.current_tokens_sold_so_far / pc.tokens_per_tier + 1) * pc.tokens_per_tier =
        pc.tokens_per_tier * (s.current_tokens_sold_so_far / pc.tokens_per_tier) +
          pc.tokens_per_tier := by ring
    rw [hexp]
    generalize pc.tokens_per_tier * (s.current_tokens_sold_so_far / pc.tokens_per_tier) = M
      at hdm ⊢
    generalize s.current_tokens_sold_so_far % pc.tokens_per_tier = r at hdm hmod ⊢
    omega
  calc (nextState pc s spend).current_tokens_sold_so_far / pc.tokens_per_tier
      ≤ (s.current_tokens_sold_so_far / pc.tokens_per_tier + 1) * pc.tokens_per_tier /
          pc.tokens_per_tier := by
        apply Nat.div_le_div_right
        rw [← key, ← htl]
        exact hsold
    _ = s.current_tokens_sold_so_far / pc.tokens_per_tier + 1 :=
        Nat.mul_div_cancel _ (Nat.pos_of_ne_zero htpt)

/-- The value of the tokens issued in one iteration, at the tier price, never
exceeds the scaled payment spent in that iteration. -/
theorem price_times_tokens_le (p spend : Nat) (hp : p ≠ 0) :
    p * calculate_tokens_for_usd spend p ≤ 10 ^ 9 * spend := by
  unfold calculate_tokens_for_usd
  rw [if_neg hp]
  by_cases hov : spend * 10 ^ 9 < u128Bound
  · rw [checked_mul_getD_of_lt _ _ _ hov, checked_div_getD _ _ _ hp]
    calc p * (spend * 10 ^ 9 / p) = spend * 10 ^ 9 / p * p := Nat.mul_comm _ _
      _ ≤ spend * 10 ^ 9 := Nat.div_mul_le_self _ _
      _ = 10 ^ 9 * spend := Nat.mul_comm _ _
  · unfold checked_mul
    rw [if_neg hov]
    simp [checked_div, hp]

/-- Accounting inequality for one iteration: at the iteration's tier price,
the growth of the token total is covered by the growth of the spent total. -/
theorem nextState_account (pc : PricingConfig) (s : LoopState) (spend : Nat)
    (hp : tierPrice pc s.current_tokens_sold_so_far ≠ 0)
    (hsp : spend ≤ s.remaining_usd)
    (hb : s.actual_usd_spent + s.remaining_usd < u128Bound) :
    tierPrice pc s.current_tokens_sold_so_far * (nextState pc s spend).total_tokens
      + 10 ^ 9 * s.actual_usd_spent
    ≤ tierPrice pc s.current_tokens_sold_so_far * s.total_tokens
      + 10 ^ 9 * (nextState pc s spend).actual_usd_spent := by
  rw [nextState_actual pc s spend hsp hb]
  have hpt := price_times_tokens_le (tierPrice pc s.current_tokens_sold_so_far) spend hp
  rcases nextState_total_cases pc s spend with h | h <;> rw [h]
  · rw [Nat.mul_add, Nat.mul_add]
    linarith
  · rw [Nat.mul_add]
    linarith

/-- Characterization of a successful loop iteration. -/
theorem loopBody_some (pc : PricingConfig) (s s' : LoopState)
    (h : loopBody pc s = some s') :
    ∃ spend, spend ≠ 0 ∧ spend ≤ s.remaining_usd ∧
      spend ≤ usdForRemainingTier pc s.current_tokens_sold_so_far ∧
      tierPrice pc s.current_tokens_sold_so_far ≠ 0 ∧
      s' = nextState pc s spend := by
  simp only [loopBody] at h
  split at h
  · cases h
  · split at h
    · cases h
    · by_cases hc : s.remaining_usd ≤ usdForRemainingTier pc s.current_tokens_sold_so_far
      · simp only [if_pos hc] at h
        split at h
        · cases h
        · exact ⟨s.remaining_usd, by assumption, le_refl _, hc, by assumption,
            (Option.some.inj h).symm⟩
      · simp only [if_neg hc] at h
        split at h
        · cases h
        · exact ⟨usdForRemainingTier pc s.current_tokens_sold_so_far, by assumption,
            le_of_not_le hc, le_refl _, by assumption, (Option.some.inj h).symm⟩

/-! Lemmas about the bounded loop. -/

/-- The spent and remaining payment totals never grow across the loop. -/
theorem multiTierLoop_inv (pc : PricingConfig) (n : Nat) (s : LoopState) :
    (multiTierLoop pc n s).actual_usd_spent + (multiTierLoop pc n s).remaining_usd
      ≤ s.actual_usd_spent + s.remaining_usd := by
  induction n generalizing s with
  | zero => simp [multiTierLoop]
  | succ n ih =>
    cases hb : loopBody pc s with
    | none => simp [multiTierLoop, hb]
    | some s2 =>
      obtain ⟨spend, _, hle, _, _, heq⟩ := loopBody_some pc s s2 hb
      subst heq
      calc (multiTierLoop pc (n + 1) s).actual_usd_spent +
            (multiTierLoop pc (n + 1) s).remaining_usd
          = (multiTierLoop pc n (nextState pc s spend)).actual_usd_spent +
            (multiTierLoop pc n (nextState pc s spend)).remaining_usd := by
            simp [multiTierLoop, hb]
        _ ≤ (nextState pc s spend).actual_usd_spent +
            (nextState pc s spend).remaining_usd := ih _
        _ ≤ s.actual_usd_spent + s.remaining_usd := nextState_inv pc s spend hle

/-- Cumulative sold never decreases across the loop. -/
theorem multiTierLoop_sold_le (pc : PricingConfig) (n : Nat) (s : LoopState) :
    s.current_tokens_sold_so_far ≤ (multiTierLoop pc n s).current_tokens_sold_so_far := by
  induction n generalizing s with
  | zero => simp [multiTierLoop]
  | succ n ih =>
    cases hb : loopBody pc s with
    | none => simp [multiTierLoop, hb]
    | some s2 =>
      obtain ⟨spend, _, _, _, _, heq⟩ := loopBody_some pc s s2 hb
      subst heq
      calc s.current_tokens_sold_so_far
          ≤ (nextState pc s spend).current_tokens_sold_so_far := nextState_sold_le pc s spend
        _ ≤ (multiTierLoop pc n (nextState pc s spend)).current_tokens_sold_so_far := ih _
        _ = (multiTierLoop pc (n + 1) s).current_tokens_sold_so_far := by
            simp [multiTierLoop, hb]

/-- Across `n` rounds the tier quotient grows by at most `n`. -/
theorem multiTierLoop_q_le (pc : PricingConfig) (n : Nat) (s : LoopState)
    (htpt : pc.tokens_per_tier ≠ 0) :
    (multiTierLoop pc n s).current_tokens_sold_so_far / pc.tokens_per_tier
      ≤ s.current_tokens_sold_so_far / pc.tokens_per_tier + n := by
  induction n generalizing s with
  | zero => simp [multiTierLoop]
  | succ n ih =>
    cases hb : loopBody pc s with
    | none =>
      simp only [multiTierLoop, hb]
      omega
    | some s2 =>
      obtain ⟨spend, hs0, _, hsu, hp, heq⟩ := loopBody_some pc s s2 hb
      subst heq
      calc (multiTierLoop pc (n + 1) s).current_tokens_sold_so_far / pc.tokens_per_tier
          = (multiTierLoop pc n (nextState pc s spend)).current_tokens_sold_so_far /
              pc.tokens_per_tier := by simp [multiTierLoop, hb]
        _ ≤ (nextState pc s spend).current_tokens_sold_so_far / pc.tokens_per_tier + n :=
            ih _
        _ ≤ s.current_tokens_sold_so_far / pc.tokens_per_tier + 1 + n := by
            have := nextState_q_le pc s spend htpt hp hsu hs0
            omega
        _ = s.current_tokens_sold_so_far / pc.tokens_per_tier + (n + 1) := by omega

/-- The `end_tier` running value always equals the tier of the running
cumulative sold amount. -/
theorem multiTierLoop_end_tier (pc : PricingConfig) (n : Nat) (s : LoopState)
    (h : s.end_tier = calculate_current_tier s.current_tokens_sold_so_far pc.tokens_per_tier) :
    (multiTierLoop pc n s).end_tier =
      calculate_current_tier (multiTierLoop pc n s).current_tokens_sold_so_far
        pc.tokens_per_tier := by
  induction n generalizing s with
  | zero => simpa [multiTierLoop] using h
  | succ n ih =>
    cases hb : loopBody pc s with
    | none => simpa [multiTierLoop, hb] using h
    | some s2 =>
      obtain ⟨spend, _, _, _, _, heq⟩ := loopBody_some pc s s2 hb
      subst heq
      have h2 := nextState_end_tier pc s spend
      simpa [multiTierLoop, hb] using ih _ h2

/-- Key accounting lemma: when the whole run of the loop stays inside the
starting tier, the issued tokens valued at the starting tier price are covered
by the spent payment (scaled by `10^9`). -/
theorem multiTierLoop_account (pc : PricingConfig) (n : Nat) (s : LoopState)
    (htpt : pc.tokens_per_tier ≠ 0)
    (hb128 : s.actual_usd_spent + s.remaining_usd < u128Bound)
    (hq : (multiTierLoop pc n s).current_tokens_sold_so_far / pc.tokens_per_tier
          = s.current_tokens_sold_so_far / pc.tokens_per_tier) :
    tierPrice pc s.current_tokens_sold_so_far * (multiTierLoop pc n s).total_tokens
      + 10 ^ 9 * s.actual_usd_spent
    ≤ tierPrice pc s.current_tokens_sold_so_far * s.total_tokens
      + 10 ^ 9 * (multiTierLoop pc n s).actual_usd_spent := by
  induction n generalizing s with
  | zero => simp [multiTierLoop]
  | succ n ih =>
    cases hb : loopBody pc s with
    | none => simp [multiTierLoop, hb]
    | some s2 =>
      obtain ⟨spend, hs0, hle, hsu, hp, heq⟩ := loopBody_some pc s s2 hb
      subst heq
      have hloop : multiTierLoop pc (n + 1) s = multiTierLoop pc n (nextState pc s spend) := by
        simp [multiTierLoop, hb]
      rw [hloop] at hq ⊢
      -- the one iteration also stays in the starting tier
      have hq1 : s.current_tokens_sold_so_far / pc.tokens_per_tier ≤
          (nextState pc s spend).current_tokens_sold_so_far / pc.tokens_per_tier :=
        Nat.div_le_div_right (nextState_sold_le pc s spend)
      have hq2 : (nextState pc s spend).current_tokens_sold_so_far / pc.tokens_per_tier ≤
          (multiTierLoop pc n (nextState pc s spend)).current_tokens_sold_so_far /
            pc.tokens_per_tier :=
        Nat.div_le_div_right (multiTierLoop_sold_le pc n _)
      have hqeq : (nextState pc s spend).current_tokens_sold_so_far / pc.tokens_per_tier =
          s.current_tokens_sold_so_far / pc.tokens_per_tier :=
        le_antisymm (hq ▸ hq2) hq1
      have hprice : tierPrice pc (nextState pc s spend).current_tokens_sold_so_far =
          tierPrice pc s.current_tokens_sold_so_far :=
        tierPrice_congr pc _ _ hqeq
      have hb2 : (nextState pc s spend).actual_usd_spent +
          (nextState pc s spend).remaining_usd < u128Bound :=
        lt_of_le_of_lt (nextState_inv pc s spend hle) hb128
      have hqn : (multiTierLoop pc n (nextState pc s spend)).current_tokens_sold_so_far /
          pc.tokens_per_tier =
          (nextState pc s spend).current_tokens_sold_so_far / pc.tokens_per_tier := by
        rw [hqeq, hq]
      have hih := ih (nextState pc s spend) hb2 hqn
      rw [hprice] at hih
      have hstep := nextState_account pc s spend hp hle hb128
      linarith

/-! Claim theorems for the tier math and the purchase solver. -/

/-- Claim C3, counterexample: at `base_price = 2^127`, `tier_index = 1`,
`multiplier = 4` the multiplication of the single iteration overflows
(`2^128 ≤ 2^127 * 4`), yet the price does not stay unchanged for that step:
the kept old price is still divided by 1000. -/
theorem C3_counterexample_overflow_step :
    u128Bound ≤ 2 ^ 127 * 4 ∧
    calculate_current_price (2 ^ 127) 1 4 = 2 ^ 127 / 1000 ∧
    calculate_current_price (2 ^ 127) 1 4 ≠ 2 ^ 127 := by
  refine ⟨by norm_num [u128Bound], by decide, by decide⟩

/-- Claim C3, amended: `calculate_current_price` performs exactly `tier_index`
iterations; an iteration without overflow computes `price * mult / 1000`, an
iteration whose multiplication overflows yields `price / 1000` (the fallback
old price still goes through the division); the division by the constant 1000
never fails. -/
theorem C3_price_iteration_amended (base tier mult : Nat) :
    calculate_current_price base tier mult =
      (fun p => if p * mult < u128Bound then p * mult / 1000 else p / 1000)^[tier] base := by
  induction tier with
  | zero => rfl
  | succ n ih =>
    rw [Function.iterate_succ_apply', ← ih, calculate_current_price_succ]
    exact priceStep_eq mult _

/-- Claim C4 (Scenario B): with the default pricing, 2.5M tokens already sold
and a payment of 20,000 USD, the solver spans tiers 0 to 1, consumes the whole
payment, and issues a token amount and blended price inside the stated open
intervals. -/
theorem C4_scenario_b :
    (calculate_multi_tier_purchase 20000000000 2500000000000000
        ⟨25000, 3000000000000000, 1300⟩).start_tier = 0 ∧
    (calculate_multi_tier_purchase 20000000000 2500000000000000
        ⟨25000, 3000000000000000, 1300⟩).end_tier = 1 ∧
    (calculate_multi_tier_purchase 20000000000 2500000000000000
        ⟨25000, 3000000000000000, 1300⟩).actual_usd_spent = 20000000000 ∧
    700000000000000 < (calculate_multi_tier_purchase 20000000000 2500000000000000
        ⟨25000, 3000000000000000, 1300⟩).total_tokens_to_buy ∧
    (calculate_multi_tier_purchase 20000000000 2500000000000000
        ⟨25000, 3000000000000000, 1300⟩).total_tokens_to_buy < 800000000000000 ∧
    25000 < (calculate_multi_tier_purchase 20000000000 2500000000000000
        ⟨25000, 3000000000000000, 1300⟩).average_price_paid ∧
    (calculate_multi_tier_purchase 20000000000 2500000000000000
        ⟨25000, 3000000000000000, 1300⟩).average_price_paid < 32500 := by
  decide

/-- Claim C5, counterexample: a one-micro-USD purchase at base price 600000
stays entirely in tier 0 (`start_tier = end_tier = 0`, 1666 tokens issued,
well inside the 3e15-token tier), yet the returned average price is 600240,
not the tier price 600000: the double flooring in `tokens = usd*1e9/price`
then `avg = usd*1e9/tokens` is not the identity. -/
theorem C5_counterexample_single_tier :
    (calculate_multi_tier_purchase 1 0 ⟨600000, 3000000000000000, 1300⟩).start_tier = 0 ∧
    (calculate_multi_tier_purchase 1 0 ⟨600000, 3000000000000000, 1300⟩).end_tier = 0 ∧
    (calculate_multi_tier_purchase 1 0
        ⟨600000, 3000000000000000, 1300⟩).total_tokens_to_buy = 1666 ∧
    calculate_current_price 600000 0 1300 = 600000 ∧
    (calculate_multi_tier_purchase 1 0
        ⟨600000, 3000000000000000, 1300⟩).average_price_paid = 600240 ∧
    (calculate_multi_tier_purchase 1 0
        ⟨600000, 3000000000000000, 1300⟩).average_price_paid ≠
      calculate_current_price 600000 0 1300 := by
  decide

/-- Claim C5, amended: when a purchase issues tokens and does not cross a tier
boundary, the returned average price is `actual_usd_spent * 10^9 /
tokens_issued` and is at least (rather than exactly equal to) the starting
tier price, provided the payment is small enough that the blended-price
numerator cannot overflow. -/
theorem C5_single_tier_amended (usd sold : Nat) (pc : PricingConfig)
    (husd : usd * 10 ^ 9 < u128Bound)
    (hst : (calculate_multi_tier_purchase usd sold pc).start_tier =
      (calculate_multi_tier_purchase usd sold pc).end_tier)
    (htot : (calculate_multi_tier_purchase usd sold pc).total_tokens_to_buy ≠ 0) :
    (calculate_multi_tier_purchase usd sold pc).average_price_paid =
      (calculate_multi_tier_purchase usd sold pc).actual_usd_spent * 10 ^ 9 /
        (calculate_multi_tier_purchase usd sold pc).total_tokens_to_buy ∧
    calculate_current_price pc.base_price_usd
        (calculate_multi_tier_purchase usd sold pc).start_tier pc.tier_multiplier
      ≤ (calculate_multi_tier_purchase usd sold pc).average_price_paid := by
  by_cases hdeg : usd = 0 ∨ pc.tokens_per_tier = 0 ∨ pc.base_price_usd = 0
  · exfalso
    apply htot
    simp [calculate_multi_tier_purchase, hdeg]
  · push_neg at hdeg
    obtain ⟨husd0, htpt, hbase⟩ := hdeg
    have hres : calculate_multi_tier_purchase usd sold pc =
        ⟨(multiTierLoop pc 50 ⟨usd, 0, sold, 0,
            calculate_current_tier sold pc.tokens_per_tier⟩).total_tokens,
          (multiTierLoop pc 50 ⟨usd, 0, sold, 0,
            calculate_current_tier sold pc.tokens_per_tier⟩).actual_usd_spent,
          calculate_current_tier sold pc.tokens_per_tier,
          (multiTierLoop pc 50 ⟨usd, 0, sold, 0,
            calculate_current_tier sold pc.tokens_per_tier⟩).end_tier,
          if (multiTierLoop pc 50 ⟨usd, 0, sold, 0,
              calculate_current_tier sold pc.tokens_per_tier⟩).total_tokens = 0 then 0
          else (checked_div ((checked_mul (multiTierLoop pc 50 ⟨usd, 0, sold, 0,
              calculate_current_tier sold pc.tokens_per_tier⟩).actual_usd_spent
              (10 ^ 9)).getD 0)
            (multiTierLoop pc 50 ⟨usd, 0, sold, 0,
              calculate_current_tier sold pc.tokens_per_tier⟩).total_tokens).getD 0⟩ := by
      unfold calculate_multi_tier_purchase
      rw [if_neg (by simp [husd0, htpt, hbase])]
    rw [hres] at hst htot ⊢
    dsimp only at hst htot ⊢
    generalize hE : calculate_current_tier sold pc.tokens_per_tier = E at hst htot ⊢
    have hend := multiTierLoop_end_tier pc 50 ⟨usd, 0, sold, 0, E⟩ hE.symm
    rw [hend] at hst
    simp only [calculate_current_tier] at hst
    rw [if_neg htpt] at hst
    have hEq : E = sold / pc.tokens_per_tier % 2 ^ 32 := by
      rw [← hE]
      simp only [calculate_current_tier]
      rw [if_neg htpt]
    have hq0 : sold / pc.tokens_per_tier ≤
        (multiTierLoop pc 50 ⟨usd, 0, sold, 0, E⟩).current_tokens_sold_so_far /
          pc.tokens_per_tier :=
      Nat.div_le_div_right (multiTierLoop_sold_le pc 50 ⟨usd, 0, sold, 0, E⟩)
    have hq50 := multiTierLoop_q_le pc 50 ⟨usd, 0, sold, 0, E⟩ htpt
    dsimp only at hq0 hq50
    have h32 : (2 : Nat) ^ 32 = 4294967296 := by norm_num
    rw [h32] at hst hEq
    have hq : (multiTierLoop pc 50 ⟨usd, 0, sold, 0, E⟩).current_tokens_sold_so_far /
          pc.tokens_per_tier = sold / pc.tokens_per_tier := by
      omega
    have husdlt : usd < u128Bound := by
      have h1 : usd * 1 ≤ usd * 10 ^ 9 := Nat.mul_le_mul_left usd (by norm_num)
      omega
    have hacc := multiTierLoop_account pc 50 ⟨usd, 0, sold, 0, E⟩ htpt
      (by dsimp only; omega) (by dsimp only; exact hq)
    dsimp only at hacc
    rw [Nat.mul_zero, Nat.mul_zero, Nat.add_zero, Nat.zero_add] at hacc
    have hinv := multiTierLoop_inv pc 50 ⟨usd, 0, sold, 0, E⟩
    dsimp only at hinv
    have hSle : (multiTierLoop pc 50 ⟨usd, 0, sold, 0, E⟩).actual_usd_spent ≤ usd := by
      omega
    have hmul : (checked_mul
        (multiTierLoop pc 50 ⟨usd, 0, sold, 0, E⟩).actual_usd_spent (10 ^ 9)).getD 0 =
        (multiTierLoop pc 50 ⟨usd, 0, sold, 0, E⟩).actual_usd_spent * 10 ^ 9 :=
      checked_mul_getD_of_lt _ _ _
        (lt_of_le_of_lt (Nat.mul_le_mul_right _ hSle) husd)
    rw [if_neg htot, hmul, checked_div_getD _ _ _ htot]
    refine ⟨rfl, ?_⟩
    rw [Nat.le_div_iff_mul_le (Nat.pos_of_ne_zero htot)]
    unfold tierPrice at hacc
    rw [hE] at hacc
    calc calculate_current_price pc.base_price_usd E pc.tier_multiplier *
          (multiTierLoop pc 50 ⟨usd, 0, sold, 0, E⟩).total_tokens
        ≤ 10 ^ 9 * (multiTierLoop pc 50 ⟨usd, 0, sold, 0, E⟩).actual_usd_spent := hacc
      _ = (multiTierLoop pc 50 ⟨usd, 0, sold, 0, E⟩).actual_usd_spent * 10 ^ 9 :=
          Nat.mul_comm _ _

/-- Witness for the C5 amended theorem: a Scenario-A purchase (100 USD at the
default pricing from zero sold) stays in tier 0 and realizes an average price
of exactly the floor quotient, at least the tier-0 price. -/
theorem C5_single_tier_amended_witness :
    (calculate_multi_tier_purchase 100000000 0
        ⟨25000, 3000000000000000, 1300⟩).average_price_paid =
      (calculate_multi_tier_purchase 100000000 0
          ⟨25000, 3000000000000000, 1300⟩).actual_usd_spent * 10 ^ 9 /
        (calculate_multi_tier_purchase 100000000 0
            ⟨25000, 3000000000000000, 1300⟩).total_tokens_to_buy ∧
    calculate_current_price 25000
        (calculate_multi_tier_purchase 100000000 0
            ⟨25000, 3000000000000000, 1300⟩).start_tier 1300
      ≤ (calculate_multi_tier_purchase 100000000 0
          ⟨25000, 3000000000000000, 1300⟩).average_price_paid :=
  C5_single_tier_amended 100000000 0 ⟨25000, 3000000000000000, 1300⟩
    (by norm_num [u128Bound]) (by decide) (by decide)

/-- Claim C6, counterexample: the `as u32` truncation makes
`calculate_current_tier` wrap at quotient `2^32` (the tier drops from
`2^32 - 1` back to 0 as one more token is sold), and an overflowing
multiplication makes `calculate_current_price` strictly decrease from tier 0
to tier 1 even with multiplier 1000. -/
theorem C6_counterexample_monotonicity :
    calculate_current_tier (2 ^ 32) 1 < calculate_current_tier (2 ^ 32 - 1) 1 ∧
    (1000 : Nat) ≤ 1000 ∧
    calculate_current_price (2 ^ 127) 1 1000 < calculate_current_price (2 ^ 127) 0 1000 := by
  refine ⟨by decide, le_refl _, by decide⟩

/-- Claim C6, amended: `calculate_current_tier` is non-decreasing in the sold
amount as long as the larger quotient stays below the `u32` truncation bound,
and `calculate_current_price` is non-decreasing in the tier index whenever the
multiplier is at least 1000 and no iteration overflows. -/
theorem C6_monotonicity_amended (s1 s2 tpt base mult t1 t2 : Nat)
    (hs : s1 ≤ s2) (hq : s2 / tpt < 2 ^ 32)
    (hm : 1000 ≤ mult) (ht : t1 ≤ t2)
    (hov : ∀ k, k < t2 → calculate_current_price base k mult * mult < u128Bound) :
    calculate_current_tier s1 tpt ≤ calculate_current_tier s2 tpt ∧
    calculate_current_price base t1 mult ≤ calculate_current_price base t2 mult :=
  ⟨tier_mono s1 s2 tpt hs hq, price_mono base mult t1 t2 hm ht hov⟩

/-- Witness for the C6 amended theorem at concrete inputs. -/
theorem C6_monotonicity_amended_witness :
    calculate_current_tier 5 2 ≤ calculate_current_tier 9 2 ∧
    calculate_current_price 25000 1 1300 ≤ calculate_current_price 25000 3 1300 :=
  C6_monotonicity_amended 5 9 2 25000 1300 1 3 (by norm_num) (by norm_num)
    (by norm_num) (by norm_num) (by decide)

/-- Claim C7, counterexample: for `usd_amount = 2^120` and
`price_per_token = 10^9` (both non-zero) the scaling multiplication overflows
and `calculate_tokens_for_usd` returns 0, not
`floor(usd_amount * 10^9 / price_per_token) = 2^120`. -/
theorem C7_counterexample_overflow :
    (2 : Nat) ^ 120 ≠ 0 ∧ (10 : Nat) ^ 9 ≠ 0 ∧
    calculate_tokens_for_usd (2 ^ 120) (10 ^ 9) = 0 ∧
    2 ^ 120 * 10 ^ 9 / 10 ^ 9 = 2 ^ 120 ∧
    calculate_tokens_for_usd (2 ^ 120) (10 ^ 9) ≠ 2 ^ 120 * 10 ^ 9 / 10 ^ 9 := by
  refine ⟨by norm_num, by norm_num, by decide, by norm_num, by decide⟩

/-- Claim C7, amended: `calculate_tokens_for_usd` returns zero on a zero
price, zero on a zero USD amount, the floor `usd * 10^9 / price` when the
scaling multiplication does not overflow, and zero (not the floor) when it
overflows. -/
theorem C7_tokens_for_usd_amended (usd price : Nat) :
    (price = 0 → calculate_tokens_for_usd usd price = 0) ∧
    (usd = 0 → calculate_tokens_for_usd usd price = 0) ∧
    (price ≠ 0 → usd * 10 ^ 9 < u128Bound →
      calculate_tokens_for_usd usd price = usd * 10 ^ 9 / price) ∧
    (price ≠ 0 → u128Bound ≤ usd * 10 ^ 9 →
      calculate_tokens_for_usd usd price = 0) := by
  refine ⟨?_, ?_, ?_, ?_⟩
  · intro h
    simp [calculate_tokens_for_usd, h]
  · intro h
    subst h
    by_cases hp : price = 0
    · simp [calculate_tokens_for_usd, hp]
    · simp [calculate_tokens_for_usd, hp, checked_mul, checked_div, u128Bound]
  · intro hp hov
    unfold calculate_tokens_for_usd
    rw [if_neg hp, checked_mul_getD_of_lt _ _ _ hov, checked_div_getD _ _ _ hp]
  · intro hp hov
    unfold calculate_tokens_for_usd checked_mul
    rw [if_neg hp, if_neg (by omega)]
    simp [checked_div, hp]

/-- Witness for the C7 amended theorem at concrete inputs. -/
theorem C7_tokens_for_usd_amended_witness :
    calculate_tokens_for_usd 0 25000 = 0 ∧
    calculate_tokens_for_usd 7 0 = 0 ∧
    calculate_tokens_for_usd 100000000 25000 = 100000000 * 10 ^ 9 / 25000 ∧
    calculate_tokens_for_usd (2 ^ 125) 25000 = 0 :=
  ⟨(C7_tokens_for_usd_amended 0 25000).2.1 rfl,
    (C7_tokens_for_usd_amended 7 0).1 rfl,
    (C7_tokens_for_usd_amended 100000000 25000).2.2.1 (by norm_num)
      (by norm_num [u128Bound]),
    (C7_tokens_for_usd_amended (2 ^ 125) 25000).2.2.2 (by norm_num)
      (by norm_num [u128Bound])⟩

/-! Claim theorems for the settlement orchestrator. -/

set_option maxHeartbeats 2000000 in
/-- Every run of `receive_cw20` either succeeds or leaves the persisted
storage untouched: the two `save` calls are only reached on the success
path. -/
theorem receive_err_or_ok (env_time contract_balance : Nat) (token_valid : Option Bool)
    (msg_parse_ok : Bool) (info_sender buyer : String) (amount : Nat) (st : Storage) :
    (receive_cw20 env_time contract_balance token_valid msg_parse_ok info_sender buyer
      amount st).2.isOk = true ∨
    (receive_cw20 env_time contract_balance token_valid msg_parse_ok info_sender buyer
      amount st).1 = st := by
  rcases hrec : receive_cw20 env_time contract_balance token_valid msg_parse_ok info_sender
    buyer amount st with ⟨st2, res⟩
  simp only [receive_cw20] at hrec
  repeat' split at hrec
  all_goals injection hrec with h1 h2
  all_goals subst h1
  all_goals subst h2
  all_goals simp [Except.isOk, Except.toBool]

set_option maxHeartbeats 2000000 in
/-- When the solver cannot consume the whole payment, `receive_cw20` fails
with no state change (the `actual_usd_to_spend != usd_value` guard). -/
theorem receive_actual_mismatch (env_time contract_balance : Nat)
    (token_valid : Option Bool) (msg_parse_ok : Bool) (info_sender buyer : String)
    (amount : Nat) (st : Storage)
    (hne : (calculate_multi_tier_purchase amount st.config.total_tokens_sold
      st.pricing_config).actual_usd_spent ≠ amount) :
    (receive_cw20 env_time contract_balance token_valid msg_parse_ok info_sender buyer
      amount st).2.isOk = false ∧
    (receive_cw20 env_time contract_balance token_valid msg_parse_ok info_sender buyer
      amount st).1 = st := by
  rcases hrec : receive_cw20 env_time contract_balance token_valid msg_parse_ok info_sender
    buyer amount st with ⟨st2, res⟩
  simp only [receive_cw20] at hrec
  repeat' split at hrec
  all_goals injection hrec with h1 h2
  all_goals subst h1
  all_goals subst h2
  all_goals simp_all [Except.isOk, Except.toBool]

/-- Claim C1: a successful settlement implies the solver consumed exactly the
full payment amount, and whenever the solver's `actual_usd_spent` differs
from the payment amount the settlement returns an error and leaves the
storage (hence the issued-token bookkeeping) untouched. -/
theorem C1_full_payment_conservation (env_time contract_balance : Nat)
    (token_valid : Option Bool) (msg_parse_ok : Bool) (info_sender buyer : String)
    (amount : Nat) (st : Storage) :
    ((receive_cw20 env_time contract_balance token_valid msg_parse_ok info_sender buyer
        amount st).2.isOk = true →
      (calculate_multi_tier_purchase amount st.config.total_tokens_sold
        st.pricing_config).actual_usd_spent = amount) ∧
    ((calculate_multi_tier_purchase amount st.config.total_tokens_sold
        st.pricing_config).actual_usd_spent ≠ amount →
      (receive_cw20 env_time contract_balance token_valid msg_parse_ok info_sender buyer
        amount st).2.isOk = false ∧
      (receive_cw20 env_time contract_balance token_valid msg_parse_ok info_sender buyer
        amount st).1 = st) := by
  constructor
  · intro hok
    by_contra hne
    have h := receive_actual_mismatch env_time contract_balance token_valid msg_parse_ok
      info_sender buyer amount st hne
    rw [h.1] at hok
    exact absurd hok (by decide)
  · exact receive_actual_mismatch env_time contract_balance token_valid msg_parse_ok
      info_sender buyer amount st

/-- Witness for C1: a successful Scenario-A settlement consumes the full
payment, and a settlement on a degenerate pricing (zero base price, solver
consumes 0 of a 5-micro-USD payment) errors with no state change. -/
theorem C1_full_payment_conservation_witness :
    (calculate_multi_tier_purchase 100000000 0
      ⟨25000, 3000000000000000, 1300⟩).actual_usd_spent = 100000000 ∧
    ((receive_cw20 0 1000000000000000000 (some true) true "cw" "buyer" 5
        ⟨⟨"admin", "ngonka", 100, false, 120000000000000000, 0⟩,
          ⟨0, 3000000000000000, 1300⟩, ⟨0, 0, 0⟩⟩).2.isOk = false ∧
      (receive_cw20 0 1000000000000000000 (some true) true "cw" "buyer" 5
        ⟨⟨"admin", "ngonka", 100, false, 120000000000000000, 0⟩,
          ⟨0, 3000000000000000, 1300⟩, ⟨0, 0, 0⟩⟩).1 =
        ⟨⟨"admin", "ngonka", 100, false, 120000000000000000, 0⟩,
          ⟨0, 3000000000000000, 1300⟩, ⟨0, 0, 0⟩⟩) :=
  ⟨(C1_full_payment_conservation 0 1000000000000000000 (some true) true "cw" "buyer"
      100000000
      ⟨⟨"admin", "ngonka", 100, false, 120000000000000000, 0⟩,
        ⟨25000, 3000000000000000, 1300⟩, ⟨0, 0, 0⟩⟩).1 (by decide),
    (C1_full_payment_conservation 0 1000000000000000000 (some true) true "cw" "buyer" 5
      ⟨⟨"admin", "ngonka", 100, false, 120000000000000000, 0⟩,
        ⟨0, 3000000000000000, 1300⟩, ⟨0, 0, 0⟩⟩).2 (by decide)⟩

/-- Claim C2: every failing settlement attempt — paused, rejected or erroring
authenticity check, parse failure, zero amount, unconsumed payment, zero
tokens, daily limit, balance conversion or balance shortfall, or any overflow
— leaves all three persisted records exactly as they were. -/
theorem C2_error_no_state_change (env_time contract_balance : Nat)
    (token_valid : Option Bool) (msg_parse_ok : Bool) (info_sender buyer : String)
    (amount : Nat) (st : Storage)
    (h : (receive_cw20 env_time contract_balance token_valid msg_parse_ok info_sender buyer
      amount st).2.isOk = false) :
    (receive_cw20 env_time contract_balance token_valid msg_parse_ok info_sender buyer
      amount st).1 = st := by
  rcases receive_err_or_ok env_time contract_balance token_valid msg_parse_ok info_sender
    buyer amount st with hok | hst
  · rw [h] at hok
    exact absurd hok (by decide)
  · exact hst

/-- Witness for C2: a settlement rejected by the authenticity check on an
otherwise healthy state mutates nothing. -/
theorem C2_error_no_state_change_witness :
    (receive_cw20 0 1000000000000000000 (some false) true "cw" "buyer" 100000000
      ⟨⟨"admin", "ngonka", 100, false, 120000000000000000, 0⟩,
        ⟨25000, 3000000000000000, 1300⟩, ⟨5, 7, 9⟩⟩).2.isOk = false ∧
    (receive_cw20 0 1000000000000000000 (some false) true "cw" "buyer" 100000000
      ⟨⟨"admin", "ngonka", 100, false, 120000000000000000, 0⟩,
        ⟨25000, 3000000000000000, 1300⟩, ⟨5, 7, 9⟩⟩).1 =
      ⟨⟨"admin", "ngonka", 100, false, 120000000000000000, 0⟩,
        ⟨25000, 3000000000000000, 1300⟩, ⟨5, 7, 9⟩⟩ :=
  ⟨by decide,
    C2_error_no_state_change 0 1000000000000000000 (some false) true "cw" "buyer" 100000000
      ⟨⟨"admin", "ngonka", 100, false, 120000000000000000, 0⟩,
        ⟨25000, 3000000000000000, 1300⟩, ⟨5, 7, 9⟩⟩ (by decide)⟩

theorem checked_add_eq_some (a b c : Nat) :
    checked_add a b = some c ↔ a + b < u128Bound ∧ c = a + b := by
  by_cases h : a + b < u128Bound
  · simp [checked_add, h, eq_comm]
  · simp [checked_add, h]

theorem getD_pos (o : Option Nat) (d : Nat) (hd : 0 < d)
    (h : ∀ x, o = some x → 0 < x) : 0 < o.getD d := by
  cases o with
  | none => simpa using hd
  | some x => simpa using h x rfl

/-- Claim C8, counterexample: `instantiate` performs no zero-check on the
provided pricing fields, so instantiating with `base_price_usd = Some(0)`
succeeds and stores a zero base price, violating the positivity invariant. -/
theorem C8_counterexample_instantiate_zero_price :
    instantiate 0 true "ngonka" ⟨none, some 100, some 0, none, none, none⟩ =
      .ok ⟨⟨"", "ngonka", 100, false, 0, 0⟩, ⟨0, 3000000000000000, 1300⟩, ⟨0, 0, 0⟩⟩ ∧
    ¬(0 < (⟨⟨"", "ngonka", 100, false, 0, 0⟩, ⟨0, 3000000000000000, 1300⟩,
        ⟨0, 0, 0⟩⟩ : Storage).pricing_config.base_price_usd) :=
  ⟨rfl, by decide⟩

/-- Claim C8, amended: the stored pricing fields are strictly positive after a
successful `instantiate` provided each provided pricing option is absent or
positive (the defaults 25000, 3e15 and 1300 cover the absent ones; instantiate
itself does not validate them), and a successful `update_pricing_config`
keeps them strictly positive whenever they were positive before (provided
fields are validated non-zero, absent fields keep the stored values). -/
theorem C8_pricing_positive_amended (env_time : Nat) (admin_valid : Bool)
    (native_denom : String) (msg : InstantiateMsg) (sender : String)
    (b t m : Option Nat) (st : Storage)
    (hb : ∀ x, msg.base_price_usd = some x → 0 < x)
    (htk : ∀ x, msg.tokens_per_tier = some x → 0 < x)
    (hm : ∀ x, msg.tier_multiplier = some x → 0 < x)
    (hpos : 0 < st.pricing_config.base_price_usd ∧ 0 < st.pricing_config.tokens_per_tier ∧
      0 < st.pricing_config.tier_multiplier) :
    (∀ st0, instantiate env_time admin_valid native_denom msg = .ok st0 →
      0 < st0.pricing_config.base_price_usd ∧ 0 < st0.pricing_config.tokens_per_tier ∧
      0 < st0.pricing_config.tier_multiplier) ∧
    ((update_pricing_config sender b t m st).2.isOk = true →
      0 < (update_pricing_config sender b t m st).1.pricing_config.base_price_usd ∧
      0 < (update_pricing_config sender b t m st).1.pricing_config.tokens_per_tier ∧
      0 < (update_pricing_config sender b t m st).1.pricing_config.tier_multiplier) := by
  constructor
  · intro st0 h
    simp only [instantiate] at h
    split at h
    · cases h
    · split at h
      · cases h
      · injection h with h0
        subst h0
        exact ⟨getD_pos _ _ (by norm_num) hb, getD_pos _ _ (by norm_num) htk,
          getD_pos _ _ (by norm_num) hm⟩
  · intro hok
    rcases hrec : update_pricing_config sender b t m st with ⟨st2, res⟩
    rw [hrec] at hok
    simp only [update_pricing_config] at hrec
    split at hrec
    · injection hrec with h1 h2
      subst h1
      subst h2
      simp [Except.isOk, Except.toBool] at hok
    · split at hrec
      · injection hrec with h1 h2
        subst h1
        subst h2
        simp [Except.isOk, Except.toBool] at hok
      · split at hrec
        · injection hrec with h1 h2
          subst h1
          subst h2
          simp [Except.isOk, Except.toBool] at hok
        · split at hrec
          · injection hrec with h1 h2
            subst h1
            subst h2
            simp [Except.isOk, Except.toBool] at hok
          · injection hrec with h1 h2
            subst h1
            subst h2
            rename_i hb0 ht0 hm0
            refine ⟨getD_pos _ _ hpos.1 ?_, getD_pos _ _ hpos.2.1 ?_,
              getD_pos _ _ hpos.2.2 ?_⟩
            · intro x hx
              rcases Nat.eq_zero_or_pos x with h0 | h0
              · exact absurd (h0 ▸ hx) hb0
              · exact h0
            · intro x hx
              rcases Nat.eq_zero_or_pos x with h0 | h0
              · exact absurd (h0 ▸ hx) ht0
              · exact h0
            · intro x hx
              rcases Nat.eq_zero_or_pos x with h0 | h0
              · exact absurd (h0 ▸ hx) hm0
              · exact h0

/-- Witness for the C8 amended theorem: a default instantiation stores the
positive defaults, and an authorized update of the multiplier on a healthy
state keeps all three fields positive. -/
theorem C8_pricing_positive_amended_witness :
    (∀ st0, instantiate 0 true "ngonka" ⟨some "admin", none, none, none, none, none⟩ =
        .ok st0 →
      0 < st0.pricing_config.base_price_usd ∧ 0 < st0.pricing_config.tokens_per_tier ∧
      0 < st0.pricing_config.tier_multiplier) ∧
    ((update_pricing_config "admin" none none (some 1500)
        ⟨⟨"admin", "ngonka", 100, false, 0, 0⟩, ⟨25000, 3000000000000000, 1300⟩,
          ⟨0, 0, 0⟩⟩).2.isOk = true →
      0 < (update_pricing_config "admin" none none (some 1500)
        ⟨⟨"admin", "ngonka", 100, false, 0, 0⟩, ⟨25000, 3000000000000000, 1300⟩,
          ⟨0, 0, 0⟩⟩).1.pricing_config.base_price_usd ∧
      0 < (update_pricing_config "admin" none none (some 1500)
        ⟨⟨"admin", "ngonka", 100, false, 0, 0⟩, ⟨25000, 3000000000000000, 1300⟩,
          ⟨0, 0, 0⟩⟩).1.pricing_config.tokens_per_tier ∧
      0 < (update_pricing_config "admin" none none (some 1500)
        ⟨⟨"admin", "ngonka", 100, false, 0, 0⟩, ⟨25000, 3000000000000000, 1300⟩,
          ⟨0, 0, 0⟩⟩).1.pricing_config.tier_multiplier) :=
  C8_pricing_positive_amended 0 true "ngonka" ⟨some "admin", none, none, none, none, none⟩
    "admin" none none (some 1500)
    ⟨⟨"admin", "ngonka", 100, false, 0, 0⟩, ⟨25000, 3000000000000000, 1300⟩, ⟨0, 0, 0⟩⟩
    (by intro x hx; cases hx) (by intro x hx; cases hx) (by intro x hx; cases hx)
    ⟨by norm_num, by norm_num, by norm_num⟩

set_option maxHeartbeats 2000000 in
/-- Claim C9: a successful settlement that observes a block day different from
the stored one resets both daily counters and adopts the new day before adding
its own amounts: the persisted daily stats afterwards hold exactly the new
day, this settlement's USD amount, and this settlement's token amount. -/
theorem C9_day_rollover (env_time contract_balance : Nat) (token_valid : Option Bool)
    (msg_parse_ok : Bool) (info_sender buyer : String) (amount : Nat) (st : Storage)
    (hday : st.daily_stats.current_day ≠ env_time / 86400)
    (hok : (receive_cw20 env_time contract_balance token_valid msg_parse_ok info_sender
      buyer amount st).2.isOk = true) :
    (receive_cw20 env_time contract_balance token_valid msg_parse_ok info_sender buyer
      amount st).1.daily_stats =
      ⟨env_time / 86400, amount,
        (calculate_multi_tier_purchase amount st.config.total_tokens_sold
          st.pricing_config).total_tokens_to_buy⟩ := by
  revert hday hok
  rcases hrec : receive_cw20 env_time contract_balance token_valid msg_parse_ok info_sender
    buyer amount st with ⟨st2, res⟩
  simp only [receive_cw20] at hrec
  repeat' split at hrec
  all_goals injection hrec with h1 h2
  all_goals subst h1
  all_goals subst h2
  all_goals intro hday hok
  all_goals simp_all [Except.isOk, Except.toBool, checked_add_eq_some]

/-- Witness for C9: a concrete successful settlement three days after the
stored day lands exactly this settlement's amounts in the daily stats. -/
theorem C9_day_rollover_witness :
    (receive_cw20 259205 1000000000000000000 (some true) true "cw" "buyer" 100000000
      ⟨⟨"admin", "ngonka", 100, false, 120000000000000000, 0⟩,
        ⟨25000, 3000000000000000, 1300⟩, ⟨0, 5, 7⟩⟩).1.daily_stats =
      ⟨3, 100000000, 4000000000000⟩ :=
  C9_day_rollover 259205 1000000000000000000 (some true) true "cw" "buyer" 100000000
    ⟨⟨"admin", "ngonka", 100, false, 120000000000000000, 0⟩,
      ⟨25000, 3000000000000000, 1300⟩, ⟨0, 5, 7⟩⟩
    (by decide) (by decide)

/-- Claim C10: for every payment, sold amount and pricing configuration
(degenerate ones included), the solver accounts for at most the offered
payment: `actual_usd_spent ≤ usd_amount`. -/
theorem C10_never_overspends (usd sold : Nat) (pc : PricingConfig) :
    (calculate_multi_tier_purchase usd sold pc).actual_usd_spent ≤ usd := by
  unfold calculate_multi_tier_purchase
  split
  · simp
  · have h := multiTierLoop_inv pc 50
      ⟨usd, 0, sold, 0, calculate_current_tier sold pc.tokens_per_tier⟩
    dsimp only at h ⊢
    omega

end LiquidityPool
